import Mathlib

/-!
Shallow embedding of the gainhq-test-backend GraphQL CRUD service
(institutes, students, courses, results, users) and proofs about its
pagination helper, analytics queries, authentication flow, and
authorization gates.  Each definition mirrors one TypeScript function of
the repository; database tables are lists of rows, Sequelize queries are
list operations, and thrown GraphQLErrors are the error side of Except.
-/

attribute [local semireducible] Rat.add Rat.mul Rat.inv Rat.sub

/-- A GraphQL error as thrown by the resolvers: a message together with
the extensions.code string. -/
structure GqlError where
  message : String
  code : String
  deriving DecidableEq, Repr

/-! ### Pagination helper, src/utils/pagination.ts -/

/-- Arguments accepted by getPaginationParams; a missing GraphQL Int
argument is none. -/
structure PaginationArgs where
  limit : Option Int
  offset : Option Int
  deriving DecidableEq, Repr

/-- JavaScript expression `x || d` for an optional numeric argument:
undefined and 0 are falsy and fall back to the default d; every other
number (negative numbers included) is truthy and kept. -/
def jsOrDefault (x : Option Int) (d : Int) : Int :=
  match x with
  | none => d
  | some v => if v = 0 then d else v

/-- getPaginationParams: limit is `Math.min(args.limit || 10, 100)` and
offset is `args.offset || 0`.  Returns (limit, offset). -/
def getPaginationParams (args : PaginationArgs) : Int × Int :=
  (min (jsOrDefault args.limit 10) 100, jsOrDefault args.offset 0)

/-- Result bundle produced by paginate. -/
structure PaginatedResult (α : Type) where
  items : List α
  totalCount : Int
  hasMore : Bool
  limit : Int
  offset : Int
  deriving DecidableEq, Repr

/-- paginate: wraps a page of rows with count metadata; the source
defaults are limit = 10 and offset = 0, applied at the call sites here. -/
def paginate {α : Type} (items : List α) (totalCount : Int)
    (limit : Int) (offset : Int) : PaginatedResult α :=
  { items := items
    totalCount := totalCount
    hasMore := decide (offset + (items.length : Int) < totalCount)
    limit := limit
    offset := offset }

/-! ### Data model, src/models.  Tables are lists of rows; ids are
modelled as Nat (opaque unique identifiers); DECIMAL scores are exact
rationals; timestamps are omitted throughout. -/

/-- A row of the users table. -/
structure UserRow where
  id : Nat
  email : String
  password : String
  role : String
  deriving DecidableEq, Repr

/-- A row of the institutes table. -/
structure InstituteRow where
  id : Nat
  name : String
  location : String
  deriving DecidableEq, Repr

/-- A row of the students table. -/
structure StudentRow where
  id : Nat
  name : String
  email : String
  instituteId : Nat
  userId : Nat
  deriving DecidableEq, Repr

/-- A row of the courses table. -/
structure CourseRow where
  id : Nat
  title : String
  code : String
  credits : Nat
  deriving DecidableEq, Repr

/-- A row of the results table. -/
structure ResultRow where
  id : Nat
  studentId : Nat
  courseId : Nat
  score : Rat
  grade : String
  year : Nat
  deriving DecidableEq, Repr

/-- The database: one list of rows per table. -/
structure DB where
  users : List UserRow
  institutes : List InstituteRow
  students : List StudentRow
  courses : List CourseRow
  results : List ResultRow
  deriving DecidableEq, Repr

/-- Students of one institute, as loaded by the eager include with
`where instituteId`. -/
def studentsOf (db : DB) (instId : Nat) : List StudentRow :=
  db.students.filter (fun s => s.instituteId = instId)

/-- Results of one student, as loaded by the eager include with
`where studentId`. -/
def resultsOf (db : DB) (sid : Nat) : List ResultRow :=
  db.results.filter (fun r => r.studentId = sid)

/-! ### Analytics resolvers, src/graphql/resolvers/analytics.ts -/

/-- The denormalized student reference attached to each flattened
result by resultsPerInstitute: student id, name, email and the
institute header. -/
structure StudentRef where
  id : Nat
  name : String
  email : String
  institute : InstituteRow
  deriving DecidableEq, Repr

/-- A flattened result produced by resultsPerInstitute: the result row,
its eagerly included course (findByPk style lookup on courseId) and the
denormalized student reference. -/
structure FlatResult where
  result : ResultRow
  course : Option CourseRow
  student : StudentRef
  deriving DecidableEq, Repr

/-- The per-institute rollup returned by resultsPerInstitute. -/
structure InstituteRollup where
  institute : InstituteRow
  results : List FlatResult
  averageScore : Rat
  totalStudents : Nat
  deriving DecidableEq, Repr

/-- The nested forEach of resultsPerInstitute: for each student of the
institute, each of the results, annotated with its course and the
student reference, in student-major order. -/
def flatResultsFor (db : DB) (inst : InstituteRow) : List FlatResult :=
  (studentsOf db inst.id).flatMap (fun s =>
    (resultsOf db s.id).map (fun r =>
      { result := r
        course := db.courses.find? (fun c => c.id = r.courseId)
        student := { id := s.id, name := s.name, email := s.email,
                     institute := inst } }))

/-- The map body of resultsPerInstitute: flatten the results, sum the
scores, and return the rollup with averageScore
`allResults.length > 0 ? totalScore / allResults.length : 0` and
totalStudents the number of loaded students. -/
def instituteRollup (db : DB) (inst : InstituteRow) : InstituteRollup :=
  let flat := flatResultsFor db inst
  let totalScore := (flat.map (fun f => f.result.score)).sum
  { institute := inst
    results := flat
    averageScore := if 0 < flat.length then totalScore / (flat.length : Rat) else 0
    totalStudents := (studentsOf db inst.id).length }

/-- resultsPerInstitute: with an instituteId the where clause is
`{id: instituteId}` and no limit is applied; without one the where
clause is empty and `limit: 10` takes the first ten institutes in table
order (the query has no order clause).  Each selected institute is
mapped to its rollup. -/
def resultsPerInstitute (db : DB) (instituteId : Option Nat) :
    List InstituteRollup :=
  let rows : List InstituteRow := match instituteId with
    | some iid => db.institutes.filter (fun i => i.id = iid)
    | none => db.institutes.take 10
  rows.map (instituteRollup db)

/-- Eleven institutes whose table order is the reverse of their name
order. -/
def exDB2 : DB :=
  { users := []
    institutes :=
      [⟨1, "K", "loc"⟩, ⟨2, "J", "loc"⟩, ⟨3, "I", "loc"⟩, ⟨4, "H", "loc"⟩,
       ⟨5, "G", "loc"⟩, ⟨6, "F", "loc"⟩, ⟨7, "E", "loc"⟩, ⟨8, "D", "loc"⟩,
       ⟨9, "C", "loc"⟩, ⟨10, "B", "loc"⟩, ⟨11, "A", "loc"⟩]
    students := []
    courses := []
    results := [] }

/-- A one-institute database with two students and three results for
the C4 witness. -/
def exDB4 : DB :=
  { users := []
    institutes := [⟨1, "Alpha", "loc"⟩]
    students := [⟨1, "S1", "s1@x", 1, 1⟩, ⟨2, "S2", "s2@x", 1, 2⟩]
    courses := [⟨1, "Math", "MATH1", 3⟩]
    results := [⟨1, 1, 1, 90, "A", 2024⟩, ⟨2, 1, 1, 80, "B", 2024⟩,
                ⟨3, 2, 1, 70, "C", 2024⟩] }

/-! ### topCourses, src/graphql/resolvers/analytics.ts -/

/-- One group of the `group: [courseId]` query of topCourses: a course
id with its COUNT of result rows. -/
structure CourseAgg where
  courseId : Nat
  enrollmentCount : Nat
  deriving DecidableEq, Repr

/-- An entry returned by topCourses: the course fetched by findByPk
(none when the id is dangling), the enrollment count and the year. -/
structure TopCourseEntry where
  course : Option CourseRow
  enrollmentCount : Nat
  year : Nat
  deriving DecidableEq, Repr

/-- Result rows of one year, the `where: [year]` clause of topCourses. -/
def yearResults (db : DB) (year : Nat) : List ResultRow :=
  db.results.filter (fun r => r.year = year)

/-- GROUP BY courseId with COUNT per group.  The group key order of the
storage engine is unspecified; it is modelled as key order of first
appearance after duplicate removal. -/
def courseAggs (rs : List ResultRow) : List CourseAgg :=
  ((rs.map (fun r => r.courseId)).dedup).map (fun cid =>
    { courseId := cid
      enrollmentCount := (rs.filter (fun r => r.courseId = cid)).length })

/-- The `order: enrollmentCount DESC` comparison of topCourses. -/
def courseDesc (a b : CourseAgg) : Prop :=
  b.enrollmentCount ≤ a.enrollmentCount

instance : DecidableRel courseDesc :=
  fun _ _ => Nat.decLe _ _

instance : IsTotal CourseAgg courseDesc :=
  ⟨fun a b => Nat.le_total b.enrollmentCount a.enrollmentCount⟩

instance : IsTrans CourseAgg courseDesc :=
  ⟨fun _ _ _ hab hbc => le_trans hbc hab⟩

/-- The aggregation query of topCourses: group the rows of the year by
course, order by descending count, apply the SQL limit. -/
def topCourseAggs (db : DB) (year limit : Nat) : List CourseAgg :=
  (List.insertionSort courseDesc (courseAggs (yearResults db year))).take limit

/-- topCourses: the aggregation query followed by a findByPk fetch of
each winning course; the source default limit is 10, applied at call
sites. -/
def topCourses (db : DB) (year limit : Nat) : List TopCourseEntry :=
  (topCourseAggs db year limit).map (fun a =>
    { course := db.courses.find? (fun c => c.id = a.courseId)
      enrollmentCount := a.enrollmentCount
      year := year })

/-! ### topStudents, src/graphql/resolvers/analytics.ts -/

/-- One group of the `group: [studentId]` query of topStudents: SUM,
AVG and COUNT over the score column of the group. -/
structure StudentAgg where
  studentId : Nat
  totalScore : Rat
  averageScore : Rat
  resultCount : Nat
  deriving DecidableEq, Repr

/-- The student detail fetched per winner, with its institute eagerly
included. -/
structure StudentDetail where
  student : StudentRow
  institute : Option InstituteRow
  deriving DecidableEq, Repr

/-- An entry returned by topStudents. -/
structure TopStudentEntry where
  student : Option StudentDetail
  totalScore : Rat
  averageScore : Rat
  resultCount : Nat
  deriving DecidableEq, Repr

/-- SUM(score), AVG(score) and COUNT over the rows of one student. -/
def studentAgg (rs : List ResultRow) (sid : Nat) : StudentAgg :=
  let mine := rs.filter (fun r => r.studentId = sid)
  { studentId := sid
    totalScore := (mine.map (fun r => r.score)).sum
    averageScore := (mine.map (fun r => r.score)).sum / (mine.length : Rat)
    resultCount := mine.length }

/-- GROUP BY studentId over all result rows (no year filter). -/
def studentAggs (rs : List ResultRow) : List StudentAgg :=
  ((rs.map (fun r => r.studentId)).dedup).map (studentAgg rs)

/-- The `order: totalScore DESC` comparison of topStudents. -/
def studentDesc (a b : StudentAgg) : Prop :=
  b.totalScore ≤ a.totalScore

instance : DecidableRel studentDesc :=
  fun a b => inferInstanceAs (Decidable (b.totalScore ≤ a.totalScore))

instance : IsTotal StudentAgg studentDesc :=
  ⟨fun a b => le_total b.totalScore a.totalScore⟩

instance : IsTrans StudentAgg studentDesc :=
  ⟨fun _ _ _ hab hbc => le_trans hbc hab⟩

/-- The aggregation query of topStudents: group all results by student,
order by descending totalScore, apply the SQL limit. -/
def topStudentAggs (db : DB) (limit : Nat) : List StudentAgg :=
  (List.insertionSort studentDesc (studentAggs db.results)).take limit

/-- topStudents: the aggregation query followed by a findByPk fetch of
each winning student with its institute; the source default limit is
10, applied at call sites. -/
def topStudents (db : DB) (limit : Nat) : List TopStudentEntry :=
  (topStudentAggs db limit).map (fun a =>
    { student := (db.students.find? (fun s => s.id = a.studentId)).map (fun s =>
        { student := s
          institute := db.institutes.find? (fun i => i.id = s.instituteId) })
      totalScore := a.totalScore
      averageScore := a.averageScore
      resultCount := a.resultCount })

/-- Three students where S1 has results 90 and 80, S2 has 100 and S3
has 50, interleaved in table order. -/
def exDB5 : DB :=
  { users := []
    institutes := [⟨1, "Alpha", "loc"⟩]
    students := [⟨1, "S1", "s1@x", 1, 1⟩, ⟨2, "S2", "s2@x", 1, 2⟩,
                 ⟨3, "S3", "s3@x", 1, 3⟩]
    courses := [⟨1, "Math", "MATH1", 3⟩]
    results := [⟨1, 1, 1, 90, "A", 2024⟩, ⟨2, 2, 1, 100, "A+", 2024⟩,
                ⟨3, 3, 1, 50, "F", 2024⟩, ⟨4, 1, 1, 80, "B", 2024⟩] }

/-- Three courses where course 1 has five 2024 enrollments, course 2
has five, course 3 has two, and course 3 additionally has ten 2023
enrollments that must not count for 2024. -/
def exDB6 : DB :=
  { users := []
    institutes := []
    students := [⟨1, "S1", "s1@x", 1, 1⟩]
    courses := [⟨1, "T1", "C1", 3⟩, ⟨2, "T2", "C2", 3⟩, ⟨3, "T3", "C3", 3⟩]
    results :=
      [⟨1, 1, 1, 90, "A", 2024⟩, ⟨2, 1, 1, 90, "A", 2024⟩,
       ⟨3, 1, 1, 90, "A", 2024⟩, ⟨4, 1, 1, 90, "A", 2024⟩,
       ⟨5, 1, 1, 90, "A", 2024⟩,
       ⟨6, 1, 2, 90, "A", 2024⟩, ⟨7, 1, 2, 90, "A", 2024⟩,
       ⟨8, 1, 2, 90, "A", 2024⟩, ⟨9, 1, 2, 90, "A", 2024⟩,
       ⟨10, 1, 2, 90, "A", 2024⟩,
       ⟨11, 1, 3, 90, "A", 2024⟩, ⟨12, 1, 3, 90, "A", 2024⟩,
       ⟨13, 1, 3, 90, "A", 2023⟩, ⟨14, 1, 3, 90, "A", 2023⟩,
       ⟨15, 1, 3, 90, "A", 2023⟩, ⟨16, 1, 3, 90, "A", 2023⟩,
       ⟨17, 1, 3, 90, "A", 2023⟩, ⟨18, 1, 3, 90, "A", 2023⟩,
       ⟨19, 1, 3, 90, "A", 2023⟩, ⟨20, 1, 3, 90, "A", 2023⟩,
       ⟨21, 1, 3, 90, "A", 2023⟩, ⟨22, 1, 3, 90, "A", 2023⟩] }

/-! ### Authorization gate, src/middleware/auth.ts -/

/-- The decoded principal attached to the request context. -/
structure Principal where
  id : Nat
  email : String
  role : String
  deriving DecidableEq, Repr

/-- The request context: an optional principal; token verification
failure upstream yields none. -/
structure AuthContext where
  user : Option Principal
  deriving DecidableEq, Repr

/-- requireAuth: throws UNAUTHENTICATED when the context carries no
principal. -/
def requireAuth (ctx : AuthContext) : Except GqlError Unit :=
  match ctx.user with
  | none =>
    Except.error { message := "Authentication required", code := "UNAUTHENTICATED" }
  | some _ => Except.ok ()

/-- requireAdmin: the source first calls requireAuth and then compares
context.user.role with the admin string; the two steps are flattened
into one match with identical observable behaviour. -/
def requireAdmin (ctx : AuthContext) : Except GqlError Unit :=
  match ctx.user with
  | none =>
    Except.error { message := "Authentication required", code := "UNAUTHENTICATED" }
  | some u =>
    if u.role = "admin" then Except.ok ()
    else Except.error { message := "Admin access required", code := "FORBIDDEN" }

/-- The extensions.code of a failed operation, none on success. -/
def errorCode {α : Type} : Except GqlError α → Option String
  | Except.error e => some e.code
  | Except.ok _ => none

/-! ### Authentication flow, src/graphql/resolvers/auth.ts -/

/-- Input of the signIn mutation. -/
structure SignInInput where
  email : String
  password : String
  deriving DecidableEq, Repr

/-- signIn: find the user by email, then compare the password against
the stored hash; both failures throw the same generic error.  The hash
comparison (bcrypt.compare) is an external collaborator and is passed
in as the verify function; token issuance is likewise external, so
success returns the user row standing for the token and user payload. -/
def signIn (verify : String → String → Bool) (db : DB) (input : SignInInput) :
    Except GqlError UserRow :=
  match db.users.find? (fun u => u.email = input.email) with
  | none =>
    Except.error { message := "Invalid credentials", code := "UNAUTHENTICATED" }
  | some u =>
    if verify input.password u.password then Except.ok u
    else
      Except.error { message := "Invalid credentials", code := "UNAUTHENTICATED" }

/-! ### Course mutations, src/graphql/resolvers/course.ts -/

/-- Input of createCourse. -/
structure CourseInput where
  title : String
  code : String
  credits : Nat
  deriving DecidableEq, Repr

/-- Partial input of updateCourse; an absent GraphQL field is none. -/
structure CourseUpdateInput where
  title : Option String
  code : Option String
  credits : Option Nat
  deriving DecidableEq, Repr

/-- JavaScript truthiness of an optional string argument, as tested by
`input.code && ...`: undefined and the empty string are falsy. -/
def jsTruthy (s : Option String) : Option String :=
  match s with
  | some c => if c = "" then none else some c
  | none => none

/-- The partial update `course.update(input)`: only supplied fields are
changed. -/
def applyCourseUpdate (c : CourseRow) (input : CourseUpdateInput) : CourseRow :=
  { c with
    title := input.title.getD c.title
    code := input.code.getD c.code
    credits := input.credits.getD c.credits }

/-- createCourse: requireAuth, then reject when a course with the input
code already exists, else insert a new row (id generation is external
and passed in as newId).  Returns the outcome and the database after
the call. -/
def createCourse (ctx : AuthContext) (db : DB) (newId : Nat)
    (input : CourseInput) : Except GqlError CourseRow × DB :=
  match requireAuth ctx with
  | Except.error e => (Except.error e, db)
  | Except.ok _ =>
    match db.courses.find? (fun c => c.code = input.code) with
    | some _ =>
      (Except.error { message := "Course with this code already exists",
                      code := "BAD_USER_INPUT" }, db)
    | none =>
      let row : CourseRow :=
        { id := newId, title := input.title, code := input.code,
          credits := input.credits }
      (Except.ok row, { db with courses := db.courses ++ [row] })

/-- updateCourse: requireAuth, find the course by id (else NOT_FOUND),
check the code for a conflict only when a truthy code is supplied that
differs from the current one, else apply the partial update. -/
def updateCourse (ctx : AuthContext) (db : DB) (id : Nat)
    (input : CourseUpdateInput) : Except GqlError CourseRow × DB :=
  match requireAuth ctx with
  | Except.error e => (Except.error e, db)
  | Except.ok _ =>
    match db.courses.find? (fun c => c.id = id) with
    | none =>
      (Except.error { message := "Course not found", code := "NOT_FOUND" }, db)
    | some course =>
      let conflict : Bool :=
        match jsTruthy input.code with
        | some newCode =>
          if newCode ≠ course.code then
            (db.courses.find? (fun c => c.code = newCode)).isSome
          else false
        | none => false
      if conflict then
        (Except.error { message := "Course with this code already exists",
                        code := "BAD_USER_INPUT" }, db)
      else
        let updated := applyCourseUpdate course input
        (Except.ok updated,
         { db with courses := db.courses.map (fun c => if c.id = id then updated else c) })

/-! ### createStudent, src/graphql/resolvers/student.ts -/

/-- Input of createStudent. -/
structure StudentInput where
  name : String
  email : String
  instituteId : Nat
  userId : Nat
  deriving DecidableEq, Repr

/-- createStudent: requireAuth, verify the referenced institute exists,
verify the referenced user exists, only then insert the row. -/
def createStudent (ctx : AuthContext) (db : DB) (newId : Nat)
    (input : StudentInput) : Except GqlError StudentRow × DB :=
  match requireAuth ctx with
  | Except.error e => (Except.error e, db)
  | Except.ok _ =>
    match db.institutes.find? (fun i => i.id = input.instituteId) with
    | none =>
      (Except.error { message := "Institute not found", code := "BAD_USER_INPUT" }, db)
    | some _ =>
      match db.users.find? (fun u => u.id = input.userId) with
      | none =>
        (Except.error { message := "User not found", code := "BAD_USER_INPUT" }, db)
      | some _ =>
        let row : StudentRow :=
          { id := newId, name := input.name, email := input.email,
            instituteId := input.instituteId, userId := input.userId }
        (Except.ok row, { db with students := db.students ++ [row] })

/-! ### Resolver map, src/graphql/resolvers/index.ts -/

/-- Every query and mutation resolver merged into the schema. -/
inductive Resolver where
  | me
  | institute
  | institutes
  | student
  | students
  | course
  | courses
  | result
  | results
  | allData
  | resultsPerInstitute
  | topCourses
  | topStudents
  | signUp
  | signIn
  | createInstitute
  | updateInstitute
  | deleteInstitute
  | createStudent
  | updateStudent
  | deleteStudent
  | createCourse
  | updateCourse
  | deleteCourse
  | createResult
  | updateResult
  | deleteResult
  deriving DecidableEq, Repr

/-- The possible authorization gates a resolver can run before its
body. -/
inductive Gate where
  | anonymous
  | authenticated
  | adminOnly
  deriving DecidableEq, Repr

/-- The gate each resolver actually runs, read off the source: the
institutes query, signUp and signIn take no gate; the me query checks
context.user inline with the same behaviour as requireAuth; every other
resolver calls requireAuth.  None calls requireAdmin. -/
def gateOf : Resolver → Gate
  | .me => .authenticated
  | .institute => .authenticated
  | .institutes => .anonymous
  | .student => .authenticated
  | .students => .authenticated
  | .course => .authenticated
  | .courses => .authenticated
  | .result => .authenticated
  | .results => .authenticated
  | .allData => .authenticated
  | .resultsPerInstitute => .authenticated
  | .topCourses => .authenticated
  | .topStudents => .authenticated
  | .signUp => .anonymous
  | .signIn => .anonymous
  | .createInstitute => .authenticated
  | .updateInstitute => .authenticated
  | .deleteInstitute => .authenticated
  | .createStudent => .authenticated
  | .updateStudent => .authenticated
  | .deleteStudent => .authenticated
  | .createCourse => .authenticated
  | .updateCourse => .authenticated
  | .deleteCourse => .authenticated
  | .createResult => .authenticated
  | .updateResult => .authenticated
  | .deleteResult => .authenticated

/-- Running a gate against a request context. -/
def runGate : Gate → AuthContext → Except GqlError Unit
  | .anonymous, _ => Except.ok ()
  | .authenticated, ctx => requireAuth ctx
  | .adminOnly, ctx => requireAdmin ctx

/-- One user whose stored password hash never matches, for the C7
witness. -/
def exDB7 : DB :=
  { users := [⟨1, "a@x", "hashed-secret", "student"⟩]
    institutes := []
    students := []
    courses := []
    results := [] }

/-- One existing course with code C1, for the C8 witness. -/
def exDB8 : DB :=
  { users := []
    institutes := []
    students := []
    courses := [⟨1, "T", "C1", 3⟩]
    results := [] }

/-- One institute and one user but no students, for the C9 witness. -/
def exDB9 : DB :=
  { users := [⟨7, "u@x", "h", "student"⟩]
    institutes := [⟨1, "Alpha", "loc"⟩]
    students := []
    courses := []
    results := [] }

/-- An authenticated non-admin context shared by the mutation
witnesses. -/
def exCtx : AuthContext := { user := some ⟨1, "a@x", "student"⟩ }

/-! ### Theorems: one per claim, with counterexamples and witnesses -/

/-- C1 counterexample: a negative requested limit is truthy in
JavaScript, so `args.limit || 10` keeps it and `Math.min` leaves it
unchanged; likewise a negative offset is returned as is.  With
limit = -5 (which is below 0) the helper returns -5, not 10, and with
offset = -3 (negative) it returns -3, not 0. -/
theorem getPaginationParams_negative_counterexample :
    (-5 : Int) ≤ 0 ∧ (-3 : Int) < 0 ∧
    (getPaginationParams { limit := some (-5), offset := some (-3) }).1 = -5 ∧
    (getPaginationParams { limit := some (-5), offset := some (-3) }).2 = -3 := by
  decide

/-- C1 (amended): the normalizer clamps a requested limit above 100 to
exactly 100; an absent or zero limit becomes 10; an absent or zero
offset becomes 0; a negative limit (at most 100) and a negative offset
are passed through unchanged. -/
theorem getPaginationParams_spec (args : PaginationArgs) :
    (∀ l, args.limit = some l → 100 < l → (getPaginationParams args).1 = 100) ∧
    ((args.limit = none ∨ args.limit = some 0) → (getPaginationParams args).1 = 10) ∧
    ((args.offset = none ∨ args.offset = some 0) → (getPaginationParams args).2 = 0) ∧
    (∀ l, args.limit = some l → l < 0 → (getPaginationParams args).1 = l) ∧
    (∀ o, args.offset = some o → o ≠ 0 → (getPaginationParams args).2 = o) := by
  obtain ⟨lim, off⟩ := args
  refine ⟨?_, ?_, ?_, ?_, ?_⟩
  · rintro l rfl hl
    simp only [getPaginationParams, jsOrDefault]
    rw [if_neg (by omega)]
    omega
  · rintro (rfl | rfl) <;> simp [getPaginationParams, jsOrDefault]
  · rintro (rfl | rfl) <;> simp [getPaginationParams, jsOrDefault]
  · rintro l rfl hl
    simp only [getPaginationParams, jsOrDefault]
    rw [if_neg (by omega)]
    omega
  · rintro o rfl ho
    simp [getPaginationParams, jsOrDefault, ho]

/-- C1 witness: a requested limit of 150 comes back as 100 and an
offset of 0 comes back as 0. -/
theorem getPaginationParams_spec_witness :
    (getPaginationParams { limit := some 150, offset := some 0 }).1 = 100 ∧
    (getPaginationParams { limit := some 150, offset := some 0 }).2 = 0 :=
  ⟨(getPaginationParams_spec _).1 150 rfl (by decide),
   (getPaginationParams_spec _).2.2.1 (Or.inr rfl)⟩

/-- C3: paginate returns the items, totalCount, limit and offset
unchanged, and hasMore is true exactly when offset plus the number of
returned items is below totalCount. -/
theorem paginate_spec {α : Type} (items : List α)
    (totalCount limit offset : Int) :
    (paginate items totalCount limit offset).items = items ∧
    (paginate items totalCount limit offset).totalCount = totalCount ∧
    (paginate items totalCount limit offset).limit = limit ∧
    (paginate items totalCount limit offset).offset = offset ∧
    ((paginate items totalCount limit offset).hasMore = true ↔
      offset + (items.length : Int) < totalCount) := by
  refine ⟨rfl, rfl, rfl, rfl, ?_⟩
  simp [paginate]

/-- C2 counterexample: the findAll of resultsPerInstitute has no order
clause, so with instituteId omitted it takes the first ten institutes
in table order, not by name.  In exDB2 the institute named K is in the
output, yet ten of the eleven institutes have a name strictly below K,
so K is not among the first ten institutes ordered by name. -/
theorem resultsPerInstitute_order_counterexample :
    ((resultsPerInstitute exDB2 none).map
        (fun roll => roll.institute.name)).contains "K" = true ∧
    (exDB2.institutes.filter
        (fun i => decide (i.name.toList < "K".toList))).length = 10 ∧
    exDB2.institutes.length = 11 ∧
    (∀ s : String, s.toList < "K".toList ↔ s < "K") :=
  ⟨by decide, by decide, by decide, fun s => String.lt_iff_toList_lt.symm⟩

/-- C2 (amended): with an instituteId the returned rollups are exactly
those of the institutes whose id equals it (one when the institute
exists, none otherwise); with instituteId omitted they are exactly
those of the first ten institutes in table order, with no name ordering
applied. -/
theorem resultsPerInstitute_selects (db : DB) (instituteId : Option Nat) :
    (resultsPerInstitute db instituteId).map (fun roll => roll.institute) =
      ((match instituteId with
        | some iid => db.institutes.filter (fun i => i.id = iid)
        | none => db.institutes.take 10 : List InstituteRow)) := by
  cases instituteId <;>
    simp [resultsPerInstitute, instituteRollup, List.map_map, Function.comp_def]

/-- C4: every rollup in the output of resultsPerInstitute has
totalStudents equal to the number of students of its institute, carries
exactly the results of those students flattened in student-major order,
and its averageScore is the arithmetic mean of the flattened scores
(0 when there are none). -/
theorem resultsPerInstitute_aggregates (db : DB) (instituteId : Option Nat)
    (roll : InstituteRollup) (hroll : roll ∈ resultsPerInstitute db instituteId) :
    roll.totalStudents =
      (db.students.filter (fun s => s.instituteId = roll.institute.id)).length ∧
    roll.results.map (fun f => f.result) =
      (db.students.filter (fun s => s.instituteId = roll.institute.id)).flatMap
        (fun s => db.results.filter (fun r => r.studentId = s.id)) ∧
    (roll.results = [] → roll.averageScore = 0) ∧
    (roll.results ≠ [] →
      roll.averageScore * (roll.results.length : Rat) =
        (roll.results.map (fun f => f.result.score)).sum) := by
  obtain ⟨inst, -, rfl⟩ := List.mem_map.mp hroll
  refine ⟨rfl, ?_, ?_, ?_⟩
  · simp [instituteRollup, flatResultsFor, studentsOf, resultsOf,
      List.map_flatMap, List.map_map, Function.comp_def]
  · intro h
    simp only [instituteRollup] at h ⊢
    simp [h]
  · intro h
    have hlen : 0 < (flatResultsFor db inst).length := by
      simp only [instituteRollup] at h
      exact List.length_pos.mpr h
    simp only [instituteRollup, if_pos hlen]
    rw [div_mul_cancel₀]
    exact Nat.cast_ne_zero.mpr (by omega)

/-- C4 witness: the rollup of institute 1 of exDB4 counts its two
students, and its averageScore times its three results equals the score
sum 240. -/
theorem resultsPerInstitute_aggregates_witness :
    (instituteRollup exDB4 ⟨1, "Alpha", "loc"⟩).totalStudents =
      (exDB4.students.filter (fun s =>
        s.instituteId = (instituteRollup exDB4 ⟨1, "Alpha", "loc"⟩).institute.id)).length ∧
    (instituteRollup exDB4 ⟨1, "Alpha", "loc"⟩).averageScore *
        (((instituteRollup exDB4 ⟨1, "Alpha", "loc"⟩).results.length : Nat) : Rat) =
      ((instituteRollup exDB4 ⟨1, "Alpha", "loc"⟩).results.map
        (fun f => f.result.score)).sum :=
  ⟨(resultsPerInstitute_aggregates exDB4 (some 1) _ (by decide)).1,
   (resultsPerInstitute_aggregates exDB4 (some 1) _ (by decide)).2.2.2 (by decide)⟩

/-- C5: topStudents returns at most limit entries, ordered by
descending totalScore, with one group per student; each group carries
the sum, count and arithmetic mean of the scores of exactly that
student.  Over exDB5 with limit 3 the totals are S1 = 170, S2 = 100,
S3 = 50 in that order. -/
theorem topStudents_spec (db : DB) (limit : Nat) (a : StudentAgg)
    (ha : a ∈ topStudentAggs db limit) :
    (topStudents db limit).length ≤ limit ∧
    List.Pairwise (fun x y : TopStudentEntry => y.totalScore ≤ x.totalScore)
      (topStudents db limit) ∧
    List.Nodup ((topStudentAggs db limit).map (fun g => g.studentId)) ∧
    a.totalScore =
      ((db.results.filter (fun r => r.studentId = a.studentId)).map
        (fun r => r.score)).sum ∧
    a.resultCount =
      (db.results.filter (fun r => r.studentId = a.studentId)).length ∧
    0 < a.resultCount ∧
    a.averageScore * (a.resultCount : Rat) = a.totalScore ∧
    (topStudentAggs exDB5 3).map (fun g => (g.studentId, g.totalScore)) =
      [(1, (170 : Rat)), (2, 100), (3, 50)] := by
  simp only [topStudentAggs] at ha
  have hsortmem : a ∈ List.insertionSort studentDesc (studentAggs db.results) :=
    List.mem_of_mem_take ha
  have hmem : a ∈ studentAggs db.results :=
    (List.perm_insertionSort studentDesc _).mem_iff.mp hsortmem
  obtain ⟨sid, hsid, rfl⟩ := List.mem_map.mp hmem
  have hcount : 0 < (studentAgg db.results sid).resultCount := by
    obtain ⟨r, hr, hrs⟩ := List.mem_map.mp (List.mem_dedup.mp hsid)
    have : r ∈ db.results.filter (fun r => r.studentId = sid) :=
      List.mem_filter.mpr ⟨hr, by simp [hrs]⟩
    simpa [studentAgg] using List.length_pos.mpr (List.ne_nil_of_mem this)
  refine ⟨?_, ?_, ?_, rfl, rfl, hcount, ?_, by decide⟩
  · simp only [topStudents, topStudentAggs, List.length_map, List.length_take]
    omega
  · have hs : List.Pairwise studentDesc
        (List.insertionSort studentDesc (studentAggs db.results)) :=
      List.sorted_insertionSort studentDesc (studentAggs db.results)
    have ht : List.Pairwise studentDesc (topStudentAggs db limit) := by
      simpa only [topStudentAggs] using hs.sublist (List.take_sublist _ _)
    simp only [topStudents]
    exact List.pairwise_map.mpr (ht.imp (fun h => h))
  · have hkeys : ((db.results.map (fun r => r.studentId)).dedup).Nodup :=
      List.nodup_dedup _
    have hmapaggs : (studentAggs db.results).map (fun g => g.studentId) =
        (db.results.map (fun r => r.studentId)).dedup := by
      simp [studentAggs, List.map_map, Function.comp_def, studentAgg]
    have hperm : List.Perm
        ((List.insertionSort studentDesc (studentAggs db.results)).map
          (fun g => g.studentId))
        ((studentAggs db.results).map (fun g => g.studentId)) :=
      (List.perm_insertionSort studentDesc _).map _
    have hsortnodup :
        ((List.insertionSort studentDesc (studentAggs db.results)).map
          (fun g => g.studentId)).Nodup :=
      hperm.nodup_iff.mpr (hmapaggs ▸ hkeys)
    simp only [topStudentAggs, List.map_take]
    exact hsortnodup.sublist (List.take_sublist _ _)
  · have hlen : (db.results.filter (fun r => r.studentId = sid)).length ≠ 0 := by
      have hc := hcount
      simp only [studentAgg] at hc
      omega
    simp only [studentAgg]
    exact div_mul_cancel₀ _ (Nat.cast_ne_zero.mpr hlen)

/-- C5 witness at exDB5 with limit 3 and the group of student 1. -/
theorem topStudents_spec_witness :
    (topStudents exDB5 3).length ≤ 3 ∧
    (studentAgg exDB5.results 1).totalScore =
      ((exDB5.results.filter
          (fun r => r.studentId = (studentAgg exDB5.results 1).studentId)).map
        (fun r => r.score)).sum :=
  ⟨(topStudents_spec exDB5 3 (studentAgg exDB5.results 1) (by decide)).1,
   (topStudents_spec exDB5 3 (studentAgg exDB5.results 1) (by decide)).2.2.2.1⟩

/-- Filtering the results by year is idempotent: running topCourses on
a database already restricted to the year changes nothing. -/
theorem yearResults_filter (db : DB) (year : Nat) :
    yearResults { db with results := yearResults db year } year =
      yearResults db year := by
  simp [yearResults, List.filter_filter]

/-- C6: topCourses depends only on the results of the given year (a
result of any other year neither contributes to a count nor appears),
returns at most limit entries ordered by descending enrollmentCount
with one group per course, each count being the number of result rows
of that course in that year, and every entry carries the given year.
Over exDB6 for 2024 with limit 2 the output is courses 1 and 2, not 3,
although course 3 has twelve enrollments across both years. -/
theorem topCourses_spec (db : DB) (year limit : Nat) (a : CourseAgg)
    (ha : a ∈ topCourseAggs db year limit) :
    topCourses db year limit =
      topCourses { db with results := yearResults db year } year limit ∧
    (topCourses db year limit).length ≤ limit ∧
    List.Pairwise
      (fun x y : TopCourseEntry => y.enrollmentCount ≤ x.enrollmentCount)
      (topCourses db year limit) ∧
    List.Nodup ((topCourseAggs db year limit).map (fun g => g.courseId)) ∧
    a.enrollmentCount =
      ((yearResults db year).filter (fun r => r.courseId = a.courseId)).length ∧
    0 < a.enrollmentCount ∧
    (∀ e ∈ topCourses db year limit, e.year = year) ∧
    ((topCourses exDB6 2024 2).map
        (fun e => e.course.map (fun c => c.id))).contains (some 1) = true ∧
    ((topCourses exDB6 2024 2).map
        (fun e => e.course.map (fun c => c.id))).contains (some 2) = true ∧
    ((topCourses exDB6 2024 2).map
        (fun e => e.course.map (fun c => c.id))).contains (some 3) = false := by
  simp only [topCourseAggs] at ha
  have hsortmem : a ∈ List.insertionSort courseDesc (courseAggs (yearResults db year)) :=
    List.mem_of_mem_take ha
  have hmem : a ∈ courseAggs (yearResults db year) :=
    (List.perm_insertionSort courseDesc _).mem_iff.mp hsortmem
  obtain ⟨cid, hcid, rfl⟩ := List.mem_map.mp hmem
  have hcount : 0 <
      ((yearResults db year).filter (fun r => r.courseId = cid)).length := by
    obtain ⟨r, hr, hrc⟩ := List.mem_map.mp (List.mem_dedup.mp hcid)
    have : r ∈ (yearResults db year).filter (fun r => r.courseId = cid) :=
      List.mem_filter.mpr ⟨hr, by simp [hrc]⟩
    exact List.length_pos.mpr (List.ne_nil_of_mem this)
  refine ⟨?_, ?_, ?_, ?_, rfl, hcount, ?_, by decide, by decide, by decide⟩
  · unfold topCourses topCourseAggs courseAggs
    rw [yearResults_filter]
  · simp only [topCourses, topCourseAggs, List.length_map, List.length_take]
    omega
  · have hs : List.Pairwise courseDesc
        (List.insertionSort courseDesc (courseAggs (yearResults db year))) :=
      List.sorted_insertionSort courseDesc (courseAggs (yearResults db year))
    have ht : List.Pairwise courseDesc (topCourseAggs db year limit) := by
      simpa only [topCourseAggs] using hs.sublist (List.take_sublist _ _)
    simp only [topCourses]
    exact List.pairwise_map.mpr (ht.imp (fun h => h))
  · have hkeys : (((yearResults db year).map (fun r => r.courseId)).dedup).Nodup :=
      List.nodup_dedup _
    have hmapaggs : (courseAggs (yearResults db year)).map (fun g => g.courseId) =
        ((yearResults db year).map (fun r => r.courseId)).dedup := by
      simp [courseAggs, List.map_map, Function.comp_def]
    have hperm : List.Perm
        ((List.insertionSort courseDesc (courseAggs (yearResults db year))).map
          (fun g => g.courseId))
        ((courseAggs (yearResults db year)).map (fun g => g.courseId)) :=
      (List.perm_insertionSort courseDesc _).map _
    have hsortnodup :
        ((List.insertionSort courseDesc (courseAggs (yearResults db year))).map
          (fun g => g.courseId)).Nodup :=
      hperm.nodup_iff.mpr (hmapaggs ▸ hkeys)
    simp only [topCourseAggs, List.map_take]
    exact hsortnodup.sublist (List.take_sublist _ _)
  · intro e he
    obtain ⟨g, -, rfl⟩ := List.mem_map.mp he
    rfl

/-- C6 witness at exDB6 for year 2024 with limit 2 and the group of
course 1. -/
theorem topCourses_spec_witness :
    (topCourses exDB6 2024 2).length ≤ 2 ∧
    (⟨1, 5⟩ : CourseAgg).enrollmentCount =
      ((yearResults exDB6 2024).filter
        (fun r => r.courseId = (⟨1, 5⟩ : CourseAgg).courseId)).length :=
  ⟨(topCourses_spec exDB6 2024 2 ⟨1, 5⟩ (by decide)).2.1,
   (topCourses_spec exDB6 2024 2 ⟨1, 5⟩ (by decide)).2.2.2.2.1⟩

/-- C7: sign-in with an email that matches no user and sign-in with an
existing email but a non-matching password produce the identical error:
same message, same UNAUTHENTICATED code. -/
theorem signIn_indistinguishable (verify : String → String → Bool) (db : DB)
    (bad good : SignInInput) (u : UserRow)
    (h1 : db.users.find? (fun w => w.email = bad.email) = none)
    (h2 : db.users.find? (fun w => w.email = good.email) = some u)
    (h3 : verify good.password u.password = false) :
    signIn verify db bad =
      Except.error { message := "Invalid credentials", code := "UNAUTHENTICATED" } ∧
    signIn verify db good =
      Except.error { message := "Invalid credentials", code := "UNAUTHENTICATED" } := by
  constructor
  · simp [signIn, h1]
  · simp [signIn, h2, h3]

/-- C7 witness: in exDB7 an unknown email and a known email with a
wrong password yield the same error object. -/
theorem signIn_indistinguishable_witness :
    signIn (fun p h => p == h) exDB7 ⟨"b@x", "pw"⟩ =
      Except.error { message := "Invalid credentials", code := "UNAUTHENTICATED" } ∧
    signIn (fun p h => p == h) exDB7 ⟨"a@x", "wrong"⟩ =
      Except.error { message := "Invalid credentials", code := "UNAUTHENTICATED" } :=
  signIn_indistinguishable (fun p h => p == h) exDB7 ⟨"b@x", "pw"⟩
    ⟨"a@x", "wrong"⟩ ⟨1, "a@x", "hashed-secret", "student"⟩
    (by decide) (by decide) (by decide)

/-- C8: createCourse fails with BAD_USER_INPUT and leaves the database
unchanged whenever a course with the input code exists; updateCourse
with a code equal to the current code of the course skips the
uniqueness check and succeeds. -/
theorem course_code_uniqueness (ctx : AuthContext) (p : Principal) (db : DB)
    (hctx : ctx.user = some p) :
    (∀ newId input,
      (db.courses.find? (fun c => c.code = input.code)).isSome = true →
      (createCourse ctx db newId input).1 =
        Except.error { message := "Course with this code already exists",
                       code := "BAD_USER_INPUT" } ∧
      (createCourse ctx db newId input).2 = db) ∧
    (∀ id input course,
      db.courses.find? (fun c => c.id = id) = some course →
      input.code = some course.code →
      (updateCourse ctx db id input).1 =
        Except.ok (applyCourseUpdate course input)) := by
  have hauth : requireAuth ctx = Except.ok () := by simp [requireAuth, hctx]
  constructor
  · intro newId input hex
    obtain ⟨c, hc⟩ := Option.isSome_iff_exists.mp hex
    constructor <;> simp [createCourse, hauth, hc]
  · intro id input course hfind hcode
    by_cases hnil : course.code = ""
    · simp [updateCourse, hauth, hfind, jsTruthy, hcode, hnil]
    · simp [updateCourse, hauth, hfind, jsTruthy, hcode, hnil]

/-- C8 witness: creating a second course with the existing code C1
fails with BAD_USER_INPUT and changes nothing; updating course 1 with
its own code C1 succeeds. -/
theorem course_code_uniqueness_witness :
    (createCourse exCtx exDB8 2 ⟨"T2", "C1", 3⟩).1 =
      Except.error { message := "Course with this code already exists",
                     code := "BAD_USER_INPUT" } ∧
    (updateCourse exCtx exDB8 1 ⟨none, some "C1", none⟩).1 =
      Except.ok (applyCourseUpdate ⟨1, "T", "C1", 3⟩ ⟨none, some "C1", none⟩) :=
  ⟨((course_code_uniqueness exCtx ⟨1, "a@x", "student"⟩ exDB8 rfl).1
      2 ⟨"T2", "C1", 3⟩ (by decide)).1,
   (course_code_uniqueness exCtx ⟨1, "a@x", "student"⟩ exDB8 rfl).2
      1 ⟨none, some "C1", none⟩ ⟨1, "T", "C1", 3⟩ (by decide) rfl⟩

/-- C9: for an authenticated context, createStudent with an
instituteId referencing no institute, or a userId referencing no user,
fails with a BAD_USER_INPUT error and leaves the whole database, the
student table in particular, unchanged. -/
theorem createStudent_reference_checks (ctx : AuthContext) (p : Principal)
    (db : DB) (newId : Nat) (input : StudentInput)
    (hctx : ctx.user = some p)
    (href : db.institutes.find? (fun i => i.id = input.instituteId) = none ∨
            db.users.find? (fun u => u.id = input.userId) = none) :
    errorCode (createStudent ctx db newId input).1 = some "BAD_USER_INPUT" ∧
    (createStudent ctx db newId input).2 = db ∧
    (createStudent ctx db newId input).2.students = db.students := by
  have hauth : requireAuth ctx = Except.ok () := by simp [requireAuth, hctx]
  rcases href with h | h
  · refine ⟨?_, ?_, ?_⟩ <;> simp [createStudent, hauth, h, errorCode]
  · cases hfind : db.institutes.find? (fun i => i.id = input.instituteId) with
    | none =>
      refine ⟨?_, ?_, ?_⟩ <;> simp [createStudent, hauth, hfind, errorCode]
    | some inst =>
      refine ⟨?_, ?_, ?_⟩ <;> simp [createStudent, hauth, hfind, h, errorCode]

/-- C9 witness: in exDB9 (institute 1, user 7, no students) a
createStudent referencing the missing institute 2 fails with
BAD_USER_INPUT and the student table stays empty. -/
theorem createStudent_reference_checks_witness :
    errorCode (createStudent exCtx exDB9 1 ⟨"S", "s@x", 2, 7⟩).1 =
      some "BAD_USER_INPUT" ∧
    (createStudent exCtx exDB9 1 ⟨"S", "s@x", 2, 7⟩).2.students =
      exDB9.students :=
  ⟨(createStudent_reference_checks exCtx ⟨1, "a@x", "student"⟩ exDB9 1
      ⟨"S", "s@x", 2, 7⟩ rfl (Or.inl (by decide))).1,
   (createStudent_reference_checks exCtx ⟨1, "a@x", "student"⟩ exDB9 1
      ⟨"S", "s@x", 2, 7⟩ rfl (Or.inl (by decide))).2.2⟩

/-- C10: no resolver gate is the admin gate, so for every authenticated
principal, of any role, every resolver passes authorization, and any
authorization error any resolver can ever produce is UNAUTHENTICATED,
never FORBIDDEN. -/
theorem no_resolver_requires_admin (r : Resolver) (ctx : AuthContext)
    (p : Principal) (hctx : ctx.user = some p) :
    gateOf r ≠ Gate.adminOnly ∧
    runGate (gateOf r) ctx = Except.ok () ∧
    (∀ ctx2 e, runGate (gateOf r) ctx2 = Except.error e →
      e.code = "UNAUTHENTICATED") := by
  have hne : gateOf r ≠ Gate.adminOnly := by cases r <;> decide
  refine ⟨hne, ?_, ?_⟩
  · cases hg : gateOf r with
    | anonymous => simp [runGate]
    | authenticated => simp [runGate, requireAuth, hctx]
    | adminOnly => exact absurd hg hne
  · intro ctx2 e he
    cases hg : gateOf r with
    | anonymous => rw [hg] at he; simp [runGate] at he
    | authenticated =>
      rw [hg] at he
      cases h2 : ctx2.user with
      | none =>
        simp only [runGate, requireAuth, h2, Except.error.injEq] at he
        rw [← he]
      | some q => simp [runGate, requireAuth, h2] at he
    | adminOnly => exact absurd hg hne

/-- C10 witness: the createInstitute resolver, for a principal whose
role is student, passes its gate. -/
theorem no_resolver_requires_admin_witness :
    gateOf Resolver.createInstitute ≠ Gate.adminOnly ∧
    runGate (gateOf Resolver.createInstitute)
      { user := some ⟨1, "s@x", "student"⟩ } = Except.ok () :=
  ⟨(no_resolver_requires_admin Resolver.createInstitute
      { user := some ⟨1, "s@x", "student"⟩ } ⟨1, "s@x", "student"⟩ rfl).1,
   (no_resolver_requires_admin Resolver.createInstitute
      { user := some ⟨1, "s@x", "student"⟩ } ⟨1, "s@x", "student"⟩ rfl).2.1⟩
